import Mathlib

/-!
Shallow embedding of the react-user-media hooks
(src/packages/react-user-media/src/hooks and the duplicated copies in
src/unnamed).  Each hook is modelled as a state machine: the per-instance
React state variables become fields of a structure, and the externally
visible entry points (request, startRecording, promise settlement, browser
events) become step functions folded over event lists.
-/

/-- A MediaDeviceInfo as far as the hooks inspect it: id, kind and label. -/
structure Device where
  deviceId : Nat
  kind : String
  label : String
deriving DecidableEq, Repr

/-- The per-instance state of useMediaDevices (use-media-devices.ts):
the useState cells devices, error, isLoading, plus the number of
enumerateDevices promises still pending. -/
structure MediaDeviceState where
  devices : Option (List Device)
  error : Option String
  isLoading : Bool
  pending : Nat
deriving DecidableEq, Repr

/-- isError of useMediaDevices: error computed as error not null. -/
def MediaDeviceState.isError (s : MediaDeviceState) : Bool := s.error.isSome

/-- isReady of useMediaDevices: devices not undefined. -/
def MediaDeviceState.isReady (s : MediaDeviceState) : Bool := s.devices.isSome

/-- The initial hook state: all useState initialisers. -/
def initMediaDeviceState : MediaDeviceState :=
  { devices := none, error := none, isLoading := false, pending := 0 }

/-- The error message built when enumerateDevices is missing. -/
def enumerateDevicesUnavailable : String :=
  "enumerateDevices is not available. Are you in a secure context?"

/-- Events that drive a useMediaDevices instance: a call to request
(with the availability of navigator.mediaDevices.enumerateDevices),
and settlement of a pending enumerateDevices promise. -/
inductive MediaDeviceEvent where
  | request (avail : Bool)
  | settleOk (ds : List Device)
  | settleErr (e : String)
deriving DecidableEq, Repr

/-- requestMediaDevices from use-media-devices.ts: return early while
loading; if enumerateDevices is missing only set error; otherwise set
loading, clear devices and error, and launch the promise.  Note the
source never calls setIsLoading with false. -/
def requestMediaDevices (avail : Bool) (s : MediaDeviceState) : MediaDeviceState :=
  if s.isLoading then s
  else if avail = false then { s with error := some enumerateDevicesUnavailable }
  else { devices := none, error := none, isLoading := true, pending := s.pending + 1 }

/-- onRequestSuccess of requestMediaDevices: store the filtered device
list and clear error.  isLoading is left untouched, as in the source. -/
def onRequestSuccessDevices (filter : Device → Bool) (ds : List Device)
    (s : MediaDeviceState) : MediaDeviceState :=
  if s.pending = 0 then s
  else { s with devices := some (ds.filter filter), error := none,
                pending := s.pending - 1 }

/-- onRequestError of requestMediaDevices: store the error and clear
devices.  isLoading is left untouched, as in the source. -/
def onRequestErrorDevices (e : String) (s : MediaDeviceState) : MediaDeviceState :=
  if s.pending = 0 then s
  else { s with devices := none, error := some e, pending := s.pending - 1 }

/-- One step of a useMediaDevices instance. -/
def devStep (filter : Device → Bool) (s : MediaDeviceState) :
    MediaDeviceEvent → MediaDeviceState
  | .request avail => requestMediaDevices avail s
  | .settleOk ds => onRequestSuccessDevices filter ds s
  | .settleErr e => onRequestErrorDevices e s

/-- Run a useMediaDevices instance over a list of events. -/
def devRun (filter : Device → Bool) (s : MediaDeviceState)
    (evs : List MediaDeviceEvent) : MediaDeviceState :=
  evs.foldl (devStep filter) s

/-- The default device filter of useMediaDevices: accept everything. -/
def defaultDeviceFilter : Device → Bool := fun _ => true

/-- A sample device used in concrete runs. -/
def micDevice : Device := { deviceId := 0, kind := "audioinput", label := "mic" }

/-- C1: after request succeeds, the useMediaDevices state keeps
isLoading true (the source never resets it), contradicting the claim
that the final ready state has isLoading false. -/
theorem c1_devices_isLoading_stuck :
    (devRun defaultDeviceFilter initMediaDeviceState
      [.request true, .settleOk [micDevice]]).devices = some [micDevice] ∧
    (devRun defaultDeviceFilter initMediaDeviceState
      [.request true, .settleOk [micDevice]]).error = none ∧
    (devRun defaultDeviceFilter initMediaDeviceState
      [.request true, .settleOk [micDevice]]).isLoading = true ∧
    (devRun defaultDeviceFilter initMediaDeviceState
      [.request true, .settleOk [micDevice]]).isReady = true := by
  decide

/-- The kind of media a useMedia instance requests: getUserMedia or
getDisplayMedia. -/
inductive MediaKind where
  | user
  | display
deriving DecidableEq, Repr

/-- The error message built by requestUserMedia when the matching browser
function is missing. -/
def mediaUnavailableMsg : MediaKind → String
  | .user => "getUserMedia is not available. Are you using a modern browser?"
  | .display => "getDisplayMedia is not available. Are you in a secure context?"

/-- The per-instance state of useMedia (both copies): the useState cells
media, error, isLoading, plus the number of promises still pending.
MediaStreams are identified by a numeric id. -/
structure UserMediaState where
  media : Option Nat
  error : Option String
  isLoading : Bool
  pending : Nat
deriving DecidableEq, Repr

/-- isError of useMedia: error computed as error not null. -/
def UserMediaState.isError (s : UserMediaState) : Bool := s.error.isSome

/-- isReady of useMedia: media not undefined. -/
def UserMediaState.isReady (s : UserMediaState) : Bool := s.media.isSome

/-- The initial useMedia state: all useState initialisers. -/
def initUserMediaState : UserMediaState :=
  { media := none, error := none, isLoading := false, pending := 0 }

/-- Events that drive a useMedia instance: a call to request (with the
availability of the matching browser function) and settlement of a
pending getUserMedia or getDisplayMedia promise. -/
inductive UserMediaEvent where
  | request (avail : Bool)
  | settleOk (m : Nat)
  | settleErr (e : String)
deriving DecidableEq, Repr

/-- requestUserMedia from src/unnamed/part_005: return early while
loading; if the browser function is missing only set error; otherwise
set loading, clear media and error, and launch the promise. -/
def requestUserMedia5 (ty : MediaKind) (avail : Bool) (s : UserMediaState) :
    UserMediaState :=
  if s.isLoading then s
  else if avail = false then { s with error := some (mediaUnavailableMsg ty) }
  else { media := none, error := none, isLoading := true, pending := s.pending + 1 }

/-- requestUserMedia from src/unnamed/part_006: identical to the
part_005 copy except that it has no early return while loading. -/
def requestUserMedia6 (ty : MediaKind) (avail : Bool) (s : UserMediaState) :
    UserMediaState :=
  if avail = false then { s with error := some (mediaUnavailableMsg ty) }
  else { media := none, error := none, isLoading := true, pending := s.pending + 1 }

/-- onRequestSuccess chained with finalizeRequest (identical in both
copies): store the media, clear error, then clear isLoading. -/
def onRequestSuccessMedia (m : Nat) (s : UserMediaState) : UserMediaState :=
  if s.pending = 0 then s
  else { media := some m, error := none, isLoading := false, pending := s.pending - 1 }

/-- onRequestError chained with finalizeRequest (identical in both
copies): store the error, clear media, then clear isLoading. -/
def onRequestErrorMedia (e : String) (s : UserMediaState) : UserMediaState :=
  if s.pending = 0 then s
  else { media := none, error := some e, isLoading := false, pending := s.pending - 1 }

/-- One step of the part_005 useMedia. -/
def mediaStep5 (ty : MediaKind) (s : UserMediaState) :
    UserMediaEvent → UserMediaState
  | .request avail => requestUserMedia5 ty avail s
  | .settleOk m => onRequestSuccessMedia m s
  | .settleErr e => onRequestErrorMedia e s

/-- One step of the part_006 useMedia. -/
def mediaStep6 (ty : MediaKind) (s : UserMediaState) :
    UserMediaEvent → UserMediaState
  | .request avail => requestUserMedia6 ty avail s
  | .settleOk m => onRequestSuccessMedia m s
  | .settleErr e => onRequestErrorMedia e s

/-- Run the part_005 useMedia over a list of events. -/
def mediaRun5 (ty : MediaKind) (s : UserMediaState) (evs : List UserMediaEvent) :
    UserMediaState :=
  evs.foldl (mediaStep5 ty) s

/-- Run the part_006 useMedia over a list of events. -/
def mediaRun6 (ty : MediaKind) (s : UserMediaState) (evs : List UserMediaEvent) :
    UserMediaState :=
  evs.foldl (mediaStep6 ty) s

/-- True when, along the trace, no request event is processed while the
state has isLoading set (evolving the state with the part_006 step, with
which the part_005 step agrees under this very condition). -/
def noRequestWhileLoading (ty : MediaKind) (s : UserMediaState) :
    List UserMediaEvent → Bool
  | [] => true
  | ev :: rest =>
    (match ev with
      | .request _ => !s.isLoading
      | _ => true)
      && noRequestWhileLoading ty (mediaStep6 ty s ev) rest

/-- The state field of a MediaRecorder object as the hooks observe it. -/
inductive RecPhase where
  | recording
  | inactive
deriving DecidableEq, Repr

/-- The per-instance state of useMediaRecorder (both copies): the current
MediaRecorder if any (its state and the timeslice it was started with),
and the useState cells segments, error, startTime, endTime.  Blobs are
identified by a numeric id; times are naturals. -/
structure RecorderState where
  recorder : Option (RecPhase × Nat)
  segments : List Nat
  error : Option String
  startTime : Option Nat
  endTime : Option Nat
deriving DecidableEq, Repr

/-- The initial useMediaRecorder state: all useState and useRef
initialisers. -/
def initRecorderState : RecorderState :=
  { recorder := none, segments := [], error := none,
    startTime := none, endTime := none }

/-- The snapshot of useMediaRecorderState: the recorder state, or the
string unavailable when no recorder exists. -/
def recorderStateSnapshot (s : RecorderState) : String :=
  match s.recorder with
  | some (.recording, _) => "recording"
  | some (.inactive, _) => "inactive"
  | none => "unavailable"

/-- isRecording of useMediaRecorder: recorderState equals recording. -/
def RecorderState.isRecording (s : RecorderState) : Bool :=
  recorderStateSnapshot s == "recording"

/-- isError of useMediaRecorder: error computed as error not null. -/
def RecorderState.isError (s : RecorderState) : Bool := s.error.isSome

/-- isFinalized of the use-media-recorder.ts copy: segments nonempty and
the recorder state inactive. -/
def RecorderState.isFinalized (s : RecorderState) : Bool :=
  !s.segments.isEmpty && (recorderStateSnapshot s == "inactive")

/-- isFinalized of the part_004 copy: additionally requires a non-null
endTime. -/
def RecorderState.isFinalized4 (s : RecorderState) : Bool :=
  !s.segments.isEmpty && (recorderStateSnapshot s == "inactive")
    && s.endTime.isSome

/-- The error message stored by observeRecorderError. -/
def recorderErrorMsg : String := "MediaRecorder encountered an unknown error."

/-- Events that drive a useMediaRecorder instance: calls to
startRecording (current time and the optional timeslice option) and to
stopRecording (current time), plus dataavailable and error events fired
by the current recorder. -/
inductive RecorderEvent where
  | start (t : Nat) (timeslice : Option Nat)
  | stop (t : Nat)
  | data (b : Nat)
  | error
deriving DecidableEq, Repr

/-- startRecordingMedia from use-media-recorder.ts: ignore the call when
already recording; otherwise build a recorder with the given timeslice
(30000 when omitted), clear segments, record startTime and start the
recorder.  endTime is not touched. -/
def startRecordingMedia (t : Nat) (timeslice : Option Nat)
    (s : RecorderState) : RecorderState :=
  if s.isRecording then s
  else { recorder := some (.recording, timeslice.getD 30000),
         segments := [], error := s.error,
         startTime := some t, endTime := s.endTime }

/-- stopRecordingMedia from use-media-recorder.ts: ignore the call when
not recording; otherwise stop the recorder and record endTime at once. -/
def stopRecordingMedia (t : Nat) (s : RecorderState) : RecorderState :=
  match s.recorder with
  | some (.recording, k) =>
      { s with recorder := some (.inactive, k), endTime := some t }
  | _ => s

/-- The dataavailable listener (default handler in both copies): append
the blob of the event to segments.  Fires only while a recorder exists. -/
def onDataAvailable (b : Nat) (s : RecorderState) : RecorderState :=
  if s.recorder.isSome then { s with segments := s.segments ++ [b] } else s

/-- The error listener of observeRecorderError (identical in both
copies): store a fixed error.  Per the MediaStream Recording spec an
erroring recorder also becomes inactive. -/
def onRecorderError (s : RecorderState) : RecorderState :=
  match s.recorder with
  | some (_, k) =>
      { s with error := some recorderErrorMsg, recorder := some (.inactive, k) }
  | none => s

/-- One step of the use-media-recorder.ts copy. -/
def recStep (s : RecorderState) : RecorderEvent → RecorderState
  | .start t ts => startRecordingMedia t ts s
  | .stop t => stopRecordingMedia t s
  | .data b => onDataAvailable b s
  | .error => onRecorderError s

/-- startRecordingMedia from src/unnamed/part_004: no guard, so every
call builds a fresh recorder; segments are cleared and endTime is reset
to null. -/
def startRecordingMedia4 (t : Nat) (timeslice : Option Nat)
    (s : RecorderState) : RecorderState :=
  { recorder := some (.recording, timeslice.getD 30000),
    segments := [], error := s.error,
    startTime := some t, endTime := none }

/-- stopRecordingMedia from src/unnamed/part_004: stop the current
recorder if it is recording; endTime is set when the stop event of the
recorder fires (modelled atomically with the stop).  Stopping an
inactive or absent recorder aborts, per the MediaStream Recording
spec. -/
def stopRecordingMedia4 (t : Nat) (s : RecorderState) : RecorderState :=
  match s.recorder with
  | some (.recording, k) =>
      { s with recorder := some (.inactive, k), endTime := some t }
  | _ => s

/-- One step of the part_004 copy. -/
def recStep4 (s : RecorderState) : RecorderEvent → RecorderState
  | .start t ts => startRecordingMedia4 t ts s
  | .stop t => stopRecordingMedia4 t s
  | .data b => onDataAvailable b s
  | .error => onRecorderError s

/-- Run the use-media-recorder.ts copy over a list of events. -/
def recRun (s : RecorderState) (evs : List RecorderEvent) : RecorderState :=
  evs.foldl recStep s

/-- Run the part_004 copy over a list of events. -/
def recRun4 (s : RecorderState) (evs : List RecorderEvent) : RecorderState :=
  evs.foldl recStep4 s

/-- C2: flag exclusivity fails.  In the use-media-recorder.ts copy the
error cell is never cleared, so after an error a recorder reaches
isError together with isFinalized (after a final dataavailable flush)
and, on a subsequent startRecording, isError together with isRecording;
the useMediaDevices hook reaches isLoading together with isReady. -/
theorem c2_flag_exclusivity_fails :
    (let s := recRun initRecorderState [.start 0 none, .data 7, .error]
     s.isError = true ∧ s.isFinalized = true) ∧
    (let s := recRun initRecorderState [.start 0 none, .error, .start 1 none]
     s.isError = true ∧ s.isRecording = true) ∧
    (let d := devRun defaultDeviceFilter initMediaDeviceState
        [.request true, .settleOk []]
     d.isLoading = true ∧ d.isReady = true) := by
  decide

/-- C3 counterexample: the duplicated hooks are not observationally
equivalent.  Calling request while loading is ignored by the part_005
useMedia but starts a second request in the part_006 copy, so the final
media differ; calling startRecording while recording is ignored by the
use-media-recorder.ts copy but restarts (resetting segments) in the
part_004 copy. -/
theorem c3_copies_not_equivalent :
    (mediaRun5 .user initUserMediaState
        [.request true, .request true, .settleOk 1, .settleOk 2]).media
      = some 1 ∧
    (mediaRun6 .user initUserMediaState
        [.request true, .request true, .settleOk 1, .settleOk 2]).media
      = some 2 ∧
    (recRun initRecorderState [.start 0 none, .data 7, .start 1 none]).segments
      = [7] ∧
    (recRun4 initRecorderState [.start 0 none, .data 7, .start 1 none]).segments
      = [] := by
  decide

/-- C3 amended: on every event sequence in which request is never called
while loading, the two useMedia copies produce the same state sequence
(the result holds from any common state, hence at every prefix). -/
theorem c3_useMedia_equiv_when_guarded (ty : MediaKind) (s : UserMediaState)
    (evs : List UserMediaEvent)
    (h : noRequestWhileLoading ty s evs = true) :
    mediaRun5 ty s evs = mediaRun6 ty s evs := by
  induction evs generalizing s with
  | nil => rfl
  | cons ev rest ih =>
    cases ev with
    | request avail =>
      simp only [noRequestWhileLoading, Bool.and_eq_true, Bool.not_eq_true'] at h
      obtain ⟨h1, h2⟩ := h
      have hstep : requestUserMedia5 ty avail s = requestUserMedia6 ty avail s := by
        simp [requestUserMedia5, requestUserMedia6, h1]
      show mediaRun5 ty (requestUserMedia5 ty avail s) rest
        = mediaRun6 ty (requestUserMedia6 ty avail s) rest
      rw [hstep]
      exact ih _ h2
    | settleOk m =>
      simp only [noRequestWhileLoading, Bool.and_eq_true] at h
      exact ih _ h.2
    | settleErr e =>
      simp only [noRequestWhileLoading, Bool.and_eq_true] at h
      exact ih _ h.2

/-- C3 amended, witness: a concrete guarded trace on which the two
useMedia copies agree. -/
theorem c3_useMedia_equiv_when_guarded_witness :
    noRequestWhileLoading .user initUserMediaState
        [.request true, .settleOk 1, .request true, .settleErr "denied"] = true ∧
    mediaRun5 .user initUserMediaState
        [.request true, .settleOk 1, .request true, .settleErr "denied"]
      = mediaRun6 .user initUserMediaState
        [.request true, .settleOk 1, .request true, .settleErr "denied"] :=
  ⟨by decide,
   c3_useMedia_equiv_when_guarded .user initUserMediaState
     [.request true, .settleOk 1, .request true, .settleErr "denied"]
     (by decide)⟩

/-- C4 counterexample: in the use-media-recorder.ts copy a call to
startRecording made while recording does not reset segments nor record a
new startTime; it is ignored. -/
theorem c4_start_while_recording_not_reset :
    let final := recRun initRecorderState [.start 2 none, .data 9, .start 5 none]
    final.segments = [9] ∧ final.startTime = some 2 := by
  decide

/-- Helper: the dataavailable handler never changes the recorder cell. -/
theorem onDataAvailable_recorder (b : Nat) (s : RecorderState) :
    (onDataAvailable b s).recorder = s.recorder := by
  unfold onDataAvailable
  split <;> rfl

/-- Helper: while a recorder exists, a burst of dataavailable events
appends exactly its blobs to segments, in arrival order. -/
theorem recRun_data_appends (bs : List Nat) (s : RecorderState)
    (h : s.recorder.isSome = true) :
    (recRun s (bs.map RecorderEvent.data)).segments = s.segments ++ bs := by
  induction bs generalizing s with
  | nil => simp [recRun]
  | cons b rest ih =>
    have hrec : (onDataAvailable b s).recorder = s.recorder :=
      onDataAvailable_recorder b s
    have hseg : (onDataAvailable b s).segments = s.segments ++ [b] := by
      simp [onDataAvailable, h]
    have := ih (onDataAvailable b s) (by rw [hrec]; exact h)
    show (recRun (onDataAvailable b s) (rest.map RecorderEvent.data)).segments
      = s.segments ++ (b :: rest)
    rw [this, hseg]
    simp

/-- C4 amended: a call to startRecording made while not recording resets
segments to the empty list, records startTime, and starts a recorder
with the given timeslice, 30000 when omitted (the part_004 copy performs
every call, additionally clearing endTime); thereafter every
dataavailable event appends exactly its Blob to segments in arrival
order. -/
theorem c4_startRecording_resets_and_appends :
    (∀ (s : RecorderState) (t : Nat) (ts : Option Nat),
      s.isRecording = false →
      startRecordingMedia t ts s =
        { recorder := some (.recording, ts.getD 30000), segments := [],
          error := s.error, startTime := some t, endTime := s.endTime }) ∧
    (∀ (s : RecorderState) (t : Nat),
      s.isRecording = false →
      (startRecordingMedia t none s).recorder = some (.recording, 30000)) ∧
    (∀ (s : RecorderState) (t : Nat) (ts : Option Nat),
      startRecordingMedia4 t ts s =
        { recorder := some (.recording, ts.getD 30000), segments := [],
          error := s.error, startTime := some t, endTime := none }) ∧
    (∀ (s : RecorderState) (b : Nat),
      s.recorder.isSome = true →
      (onDataAvailable b s).segments = s.segments ++ [b]) ∧
    (∀ (s : RecorderState) (bs : List Nat),
      s.recorder.isSome = true →
      (recRun s (bs.map RecorderEvent.data)).segments = s.segments ++ bs) := by
  refine ⟨?_, ?_, ?_, ?_, ?_⟩
  · intro s t ts h
    simp [startRecordingMedia, h]
  · intro s t h
    simp [startRecordingMedia, h]
  · intro s t ts
    rfl
  · intro s b h
    simp [onDataAvailable, h]
  · intro s bs h
    exact recRun_data_appends bs s h

/-- C4 amended, witness: the reset and the ordered appends evaluated on
a concrete run. -/
theorem c4_startRecording_resets_and_appends_witness :
    initRecorderState.isRecording = false ∧
    startRecordingMedia 3 none initRecorderState =
      { recorder := some (.recording, 30000), segments := [],
        error := none, startTime := some 3, endTime := none } ∧
    (recRun (startRecordingMedia 3 none initRecorderState)
        ([4, 5, 6].map RecorderEvent.data)).segments = [4, 5, 6] :=
  ⟨by decide, by
    rw [c4_startRecording_resets_and_appends.1 initRecorderState 3 none (by decide)]
    decide, by
    rw [c4_startRecording_resets_and_appends.2.2.2.2
      (startRecordingMedia 3 none initRecorderState) [4, 5, 6] (by decide)]
    decide⟩

/-- C6: when the matching browser function is absent, request
synchronously stores a descriptive error and changes nothing else: the
previously obtained devices or media, isLoading and the pending requests
are all left as they were, and the loading state is not entered.  The
two guarded hooks are considered from a non-loading state (their first
check returns before the availability check otherwise); the part_006
copy behaves so from every state. -/
theorem c6_unavailable_sets_error_only :
    (∀ s : MediaDeviceState, s.isLoading = false →
      requestMediaDevices false s =
        { s with error := some enumerateDevicesUnavailable }) ∧
    (∀ (ty : MediaKind) (s : UserMediaState), s.isLoading = false →
      requestUserMedia5 ty false s =
        { s with error := some (mediaUnavailableMsg ty) }) ∧
    (∀ (ty : MediaKind) (s : UserMediaState),
      requestUserMedia6 ty false s =
        { s with error := some (mediaUnavailableMsg ty) }) := by
  refine ⟨?_, ?_, ?_⟩
  · intro s h
    simp [requestMediaDevices, h]
  · intro ty s h
    simp [requestUserMedia5, h]
  · intro ty s
    rfl

/-- C6, witness: a ready devices state with enumerateDevices absent:
request only sets the error, keeping the devices and isLoading. -/
theorem c6_unavailable_sets_error_only_witness :
    (let ready : MediaDeviceState :=
      { devices := some [micDevice], error := none, isLoading := false, pending := 0 }
     ready.isLoading = false ∧
     requestMediaDevices false ready =
       { devices := some [micDevice],
         error := some enumerateDevicesUnavailable,
         isLoading := false, pending := 0 }) :=
  ⟨by decide, by
    rw [c6_unavailable_sets_error_only.1
      { devices := some [micDevice], error := none, isLoading := false, pending := 0 }
      (by decide)]⟩

/-- A MediaStreamTrack as far as useMediaTracks inspects it: id and kind. -/
structure Track where
  id : Nat
  kind : String
deriving DecidableEq, Repr

/-- getSnapshot of useMediaTracks (use-media-ext.ts, identical in
src/unnamed/part_003) for a defined MediaStream: latest is
media.getTracks() at the time of the call, cache is trackCache.current;
the cache is replaced by latest only when the lengths differ and some
latest id is missing from the cache, and the (possibly updated) cache is
returned. -/
def getSnapshotTracks (latest cache : List Track) : List Track :=
  if latest.length ≠ cache.length then
    if ¬ ((latest.map (fun t => t.id)).all
        (fun i => (cache.map (fun t => t.id)).contains i)) then latest
    else cache
  else cache

/-- A sample audio track. -/
def audioTrack1 : Track := { id := 1, kind := "audio" }

/-- A sample video track. -/
def videoTrack2 : Track := { id := 2, kind := "video" }

/-- C5: the snapshot goes permanently stale on removal.  From an empty
cache the first call returns the current tracks, but after a removetrack
shrinks getTracks the guard keeps the old cache (every remaining id is
still cached), and an equal-length replacement is not even examined; in
both cases the returned array is not the current getTracks id set. -/
theorem c5_snapshot_stale_on_removal :
    getSnapshotTracks [audioTrack1, videoTrack2] [] = [audioTrack1, videoTrack2] ∧
    getSnapshotTracks [audioTrack1] [audioTrack1, videoTrack2]
      = [audioTrack1, videoTrack2] ∧
    getSnapshotTracks [audioTrack1] [audioTrack1, videoTrack2] ≠ [audioTrack1] ∧
    getSnapshotTracks [videoTrack2] [audioTrack1] = [audioTrack1] ∧
    getSnapshotTracks [videoTrack2] [audioTrack1] ≠ [videoTrack2] := by
  decide

/-- A listener registration on an event target: event name and the
identity of the callback. -/
abbrev Listener := String × Nat

/-- addEventListener: a no-op when the same registration is already
present, otherwise appended. -/
def addEventListener (l : Listener) (L : List Listener) : List Listener :=
  if l ∈ L then L else L ++ [l]

/-- removeEventListener: removes the first matching registration. -/
def removeEventListener (l : Listener) : List Listener → List Listener
  | [] => []
  | x :: xs => if x = l then xs else x :: removeEventListener l xs

/-- A subscribe body: addEventListener for each event name in order,
with the one callback. -/
def subscribeEvents (names : List String) (cb : Nat) (L : List Listener) :
    List Listener :=
  names.foldl (fun acc n => addEventListener (n, cb) acc) L

/-- The matching unsubscribe body: removeEventListener for each event
name in order, with the same callback. -/
def unsubscribeEvents (names : List String) (cb : Nat) (L : List Listener) :
    List Listener :=
  names.foldl (fun acc n => removeEventListener (n, cb) acc) L

/-- Helper: removing an element absent from a prefix skips the prefix. -/
theorem removeEventListener_append_of_not_mem (x : Listener)
    (L M : List Listener) (h : x ∉ L) :
    removeEventListener x (L ++ M) = L ++ removeEventListener x M := by
  induction L with
  | nil => rfl
  | cons y ys ih =>
    rw [List.mem_cons, not_or] at h
    rw [List.cons_append, removeEventListener, if_neg (fun hyx => h.1 hyx.symm),
      ih h.2, List.cons_append]

/-- Helper: subscribing fresh registrations appends them in order. -/
theorem subscribeEvents_eq_append (names : List String) (cb : Nat)
    (L : List Listener) (hnd : names.Nodup)
    (h : ∀ n ∈ names, (n, cb) ∉ L) :
    subscribeEvents names cb L = L ++ names.map (fun n => (n, cb)) := by
  induction names generalizing L with
  | nil => simp [subscribeEvents]
  | cons n ns ih =>
    rw [List.nodup_cons] at hnd
    have hadd : addEventListener (n, cb) L = L ++ [(n, cb)] := by
      rw [addEventListener, if_neg (h n (List.mem_cons_self n ns))]
    have hfresh : ∀ m ∈ ns, (m, cb) ∉ L ++ [(n, cb)] := by
      intro m hm
      rw [List.mem_append]
      rintro (hL | hone)
      · exact h m (List.mem_cons_of_mem n hm) hL
      · rw [List.mem_singleton, Prod.mk.injEq] at hone
        exact hnd.1 (hone.1 ▸ hm)
    show subscribeEvents ns cb (addEventListener (n, cb) L)
      = L ++ (n, cb) :: ns.map (fun m => (m, cb))
    rw [hadd, ih _ hnd.2 hfresh]
    simp

/-- Helper: unsubscribing removes exactly the appended registrations. -/
theorem unsubscribeEvents_append (names : List String) (cb : Nat)
    (L : List Listener) (hnd : names.Nodup)
    (h : ∀ n ∈ names, (n, cb) ∉ L) :
    unsubscribeEvents names cb (L ++ names.map (fun n => (n, cb))) = L := by
  induction names generalizing L with
  | nil => simp [unsubscribeEvents]
  | cons n ns ih =>
    rw [List.nodup_cons] at hnd
    have hrm : removeEventListener (n, cb)
        (L ++ (n, cb) :: ns.map (fun m => (m, cb)))
        = L ++ ns.map (fun m => (m, cb)) := by
      rw [removeEventListener_append_of_not_mem _ _ _
        (h n (List.mem_cons_self n ns)), removeEventListener, if_pos rfl]
    show unsubscribeEvents ns cb (removeEventListener (n, cb)
      (L ++ (n, cb) :: ns.map (fun m => (m, cb)))) = L
    rw [hrm]
    exact ih _ hnd.2 (fun m hm => h m (List.mem_cons_of_mem n hm))

/-- Helper: a subscribe with fresh registrations followed by its
unsubscribe restores the listener list. -/
theorem unsubscribe_subscribe_id (names : List String) (cb : Nat)
    (L : List Listener) (hnd : names.Nodup)
    (h : ∀ n ∈ names, (n, cb) ∉ L) :
    unsubscribeEvents names cb (subscribeEvents names cb L) = L := by
  rw [subscribeEvents_eq_append names cb L hnd h]
  exact unsubscribeEvents_append names cb L hnd h

/-- subscribe of useMediaTracks: addtrack and removetrack on the media. -/
def subscribeTracks (cb : Nat) (L : List Listener) : List Listener :=
  subscribeEvents ["addtrack", "removetrack"] cb L

/-- unsubscribe of useMediaTracks. -/
def unsubscribeTracks (cb : Nat) (L : List Listener) : List Listener :=
  unsubscribeEvents ["addtrack", "removetrack"] cb L

/-- subscribe of useTrackMuteState: mute and unmute on the track. -/
def subscribeMuteState (cb : Nat) (L : List Listener) : List Listener :=
  subscribeEvents ["mute", "unmute"] cb L

/-- unsubscribe of useTrackMuteState. -/
def unsubscribeMuteState (cb : Nat) (L : List Listener) : List Listener :=
  unsubscribeEvents ["mute", "unmute"] cb L

/-- subscribe of useMediaRecorderState: start, stop, resume and pause on
the recorder; when no recorder exists the optional chaining makes every
call a no-op. -/
def subscribeRecorderState (hasRecorder : Bool) (cb : Nat)
    (L : List Listener) : List Listener :=
  if hasRecorder then subscribeEvents ["start", "stop", "resume", "pause"] cb L
  else L

/-- unsubscribe of useMediaRecorderState. -/
def unsubscribeRecorderState (hasRecorder : Bool) (cb : Nat)
    (L : List Listener) : List Listener :=
  if hasRecorder then unsubscribeEvents ["start", "stop", "resume", "pause"] cb L
  else L

/-- The requestMediaDevicesEvent effect of useMediaDevices: devicechange
on navigator.mediaDevices, and its teardown. -/
def subscribeDeviceChange (cb : Nat) (L : List Listener) : List Listener :=
  subscribeEvents ["devicechange"] cb L

/-- teardown of requestMediaDevicesEvent. -/
def teardownDeviceChange (cb : Nat) (L : List Listener) : List Listener :=
  unsubscribeEvents ["devicechange"] cb L

/-- C7: for each subscription the returned unsubscribe or teardown
removes exactly the listeners subscribe added, on the same target and
for the same event names: when the callback is not already registered
for those events, subscribe followed by unsubscribe leaves the listener
list of the target unchanged. -/
theorem c7_unsubscribe_restores_listeners :
    (∀ (L : List Listener) (cb : Nat),
      (∀ n ∈ ["addtrack", "removetrack"], (n, cb) ∉ L) →
      unsubscribeTracks cb (subscribeTracks cb L) = L) ∧
    (∀ (L : List Listener) (cb : Nat),
      (∀ n ∈ ["mute", "unmute"], (n, cb) ∉ L) →
      unsubscribeMuteState cb (subscribeMuteState cb L) = L) ∧
    (∀ (hasRecorder : Bool) (L : List Listener) (cb : Nat),
      (∀ n ∈ ["start", "stop", "resume", "pause"], (n, cb) ∉ L) →
      unsubscribeRecorderState hasRecorder cb
        (subscribeRecorderState hasRecorder cb L) = L) ∧
    (∀ (L : List Listener) (cb : Nat),
      (∀ n ∈ ["devicechange"], (n, cb) ∉ L) →
      teardownDeviceChange cb (subscribeDeviceChange cb L) = L) := by
  refine ⟨?_, ?_, ?_, ?_⟩
  · intro L cb h
    exact unsubscribe_subscribe_id _ cb L (by decide) h
  · intro L cb h
    exact unsubscribe_subscribe_id _ cb L (by decide) h
  · intro hasRecorder L cb h
    cases hasRecorder with
    | false => rfl
    | true =>
      show unsubscribeEvents ["start", "stop", "resume", "pause"] cb
        (subscribeEvents ["start", "stop", "resume", "pause"] cb L) = L
      exact unsubscribe_subscribe_id _ cb L (by decide) h
  · intro L cb h
    exact unsubscribe_subscribe_id _ cb L (by decide) h

/-- C7, witness: the four subscribe and unsubscribe pairs evaluated on a
concrete nonempty listener list with a fresh callback. -/
theorem c7_unsubscribe_restores_listeners_witness :
    unsubscribeTracks 1 (subscribeTracks 1 [("addtrack", 0)]) = [("addtrack", 0)] ∧
    unsubscribeMuteState 1 (subscribeMuteState 1 [("mute", 0)]) = [("mute", 0)] ∧
    unsubscribeRecorderState true 1
      (subscribeRecorderState true 1 [("start", 0)]) = [("start", 0)] ∧
    teardownDeviceChange 1 (subscribeDeviceChange 1 []) = [] :=
  ⟨c7_unsubscribe_restores_listeners.1 [("addtrack", 0)] 1 (by decide),
   c7_unsubscribe_restores_listeners.2.1 [("mute", 0)] 1 (by decide),
   c7_unsubscribe_restores_listeners.2.2.1 true [("start", 0)] 1 (by decide),
   c7_unsubscribe_restores_listeners.2.2.2 [] 1 (by decide)⟩

/-- useMediaAudioTracks (use-media-ext.ts): the base hook result
filtered to the audio kind. -/
def useMediaAudioTracks (tracks : List Track) : List Track :=
  tracks.filter (fun t => t.kind == "audio")

/-- useMediaVideoTracks (use-media-ext.ts): the base hook result
filtered to the video kind. -/
def useMediaVideoTracks (tracks : List Track) : List Track :=
  tracks.filter (fun t => t.kind == "video")

/-- Whether a device passes the optional caller filter; absent means
accept (the disjunct options filter missing in the source). -/
def callerPasses (f : Option (Device → Bool)) (d : Device) : Bool :=
  match f with
  | none => true
  | some g => g d

/-- The filter installed by useMediaAudioInputDevices
(use-media-devices-ext.ts). -/
def audioInputDeviceFilter (f : Option (Device → Bool)) (d : Device) : Bool :=
  (d.kind == "audioinput") && callerPasses f d

/-- The filter installed by useMediaAudioOutputDevices
(use-media-devices-ext.ts). -/
def audioOutputDeviceFilter (f : Option (Device → Bool)) (d : Device) : Bool :=
  (d.kind == "audiooutput") && callerPasses f d

/-- The ready device list of useMediaAudioInputDevices: useMediaDevices
applies the installed filter to the enumerateDevices result in
onRequestSuccess. -/
def useMediaAudioInputDevices (f : Option (Device → Bool))
    (enumerated : List Device) : List Device :=
  enumerated.filter (audioInputDeviceFilter f)

/-- The ready device list of useMediaAudioOutputDevices. -/
def useMediaAudioOutputDevices (f : Option (Device → Bool))
    (enumerated : List Device) : List Device :=
  enumerated.filter (audioOutputDeviceFilter f)

/-- C8: every kind-specialising hook returns exactly the
order-preserving subsequence of its base result matching the kind (and,
for the device hooks, also the caller filter), and the ready devices of
useMediaDevices are the enumerateDevices result filtered by the options
filter, which defaults to accept-all. -/
theorem c8_specialisers_filter_exactly :
    (∀ tracks : List Track,
      (useMediaAudioTracks tracks).Sublist tracks ∧
      ∀ t, t ∈ useMediaAudioTracks tracks ↔ t ∈ tracks ∧ t.kind = "audio") ∧
    (∀ tracks : List Track,
      (useMediaVideoTracks tracks).Sublist tracks ∧
      ∀ t, t ∈ useMediaVideoTracks tracks ↔ t ∈ tracks ∧ t.kind = "video") ∧
    (∀ (f : Option (Device → Bool)) (l : List Device),
      (useMediaAudioInputDevices f l).Sublist l ∧
      ∀ d, d ∈ useMediaAudioInputDevices f l ↔
        d ∈ l ∧ d.kind = "audioinput" ∧ callerPasses f d = true) ∧
    (∀ (f : Option (Device → Bool)) (l : List Device),
      (useMediaAudioOutputDevices f l).Sublist l ∧
      ∀ d, d ∈ useMediaAudioOutputDevices f l ↔
        d ∈ l ∧ d.kind = "audiooutput" ∧ callerPasses f d = true) ∧
    (∀ (filter : Device → Bool) (ds : List Device) (s : MediaDeviceState),
      (onRequestSuccessDevices filter ds
        { s with pending := s.pending + 1 }).devices = some (ds.filter filter)) ∧
    (∀ ds : List Device, ds.filter defaultDeviceFilter = ds) := by
  refine ⟨?_, ?_, ?_, ?_, ?_, ?_⟩
  · intro tracks
    exact ⟨List.filter_sublist tracks, fun t => by
      simp [useMediaAudioTracks, List.mem_filter]⟩
  · intro tracks
    exact ⟨List.filter_sublist tracks, fun t => by
      simp [useMediaVideoTracks, List.mem_filter]⟩
  · intro f l
    exact ⟨List.filter_sublist l, fun d => by
      simp [useMediaAudioInputDevices, List.mem_filter,
        audioInputDeviceFilter, and_assoc]⟩
  · intro f l
    exact ⟨List.filter_sublist l, fun d => by
      simp [useMediaAudioOutputDevices, List.mem_filter,
        audioOutputDeviceFilter, and_assoc]⟩
  · intro filter ds s
    simp [onRequestSuccessDevices]
  · intro ds
    simp [defaultDeviceFilter]

/-- A MediaStreamTrack as far as useTrackMuteState inspects it. -/
structure StreamTrack where
  muted : Bool
deriving DecidableEq, Repr

/-- The browser mute and unmute events on a track. -/
inductive TrackMuteEvent where
  | mute
  | unmute
deriving DecidableEq, Repr

/-- A mute event fires when muted becomes true, an unmute event when it
becomes false. -/
def applyTrackMuteEvent : StreamTrack → TrackMuteEvent → StreamTrack
  | _, .mute => { muted := true }
  | _, .unmute => { muted := false }

/-- getSnapshot of useTrackMuteState: muted when track.muted, otherwise
unmuted. -/
def getSnapshotMuteState (t : StreamTrack) : String :=
  if t.muted then "muted" else "unmuted"

/-- C9: the snapshot of useTrackMuteState is muted exactly when
track.muted holds, at every call, including immediately after any
sequence of mute and unmute events. -/
theorem c9_mute_snapshot_matches :
    (∀ t : StreamTrack,
      (getSnapshotMuteState t = "muted" ↔ t.muted = true) ∧
      (getSnapshotMuteState t = "unmuted" ↔ t.muted = false)) ∧
    (∀ (t : StreamTrack) (evs : List TrackMuteEvent),
      getSnapshotMuteState (evs.foldl applyTrackMuteEvent t) = "muted" ↔
        (evs.foldl applyTrackMuteEvent t).muted = true) ∧
    (∀ t : StreamTrack,
      getSnapshotMuteState (applyTrackMuteEvent t .mute) = "muted") ∧
    (∀ t : StreamTrack,
      getSnapshotMuteState (applyTrackMuteEvent t .unmute) = "unmuted") := by
  have key : ∀ t : StreamTrack,
      (getSnapshotMuteState t = "muted" ↔ t.muted = true) ∧
      (getSnapshotMuteState t = "unmuted" ↔ t.muted = false) := by
    intro t
    cases t with
    | mk muted => cases muted <;> simp [getSnapshotMuteState]
  refine ⟨key, ?_, ?_, ?_⟩
  · intro t evs
    exact (key _).1
  · intro t
    rfl
  · intro t
    rfl

/-- Applying a useMediaDevices event to one of two instances, each with
its own filter. -/
def devPairStep (f g : Device → Bool) (onFirst : Bool) (e : MediaDeviceEvent)
    (p : MediaDeviceState × MediaDeviceState) :
    MediaDeviceState × MediaDeviceState :=
  if onFirst then (devStep f p.1 e, p.2) else (p.1, devStep g p.2 e)

/-- Applying a useMedia event to one of two instances (possibly of
different media kinds, possibly from different copies of the hook). -/
def mediaPairStep (ty₁ ty₂ : MediaKind) (onFirst : Bool) (e : UserMediaEvent)
    (p : UserMediaState × UserMediaState) : UserMediaState × UserMediaState :=
  if onFirst then (mediaStep5 ty₁ p.1 e, p.2) else (p.1, mediaStep6 ty₂ p.2 e)

/-- Applying a useMediaRecorder event to one of two instances. -/
def recPairStep (onFirst : Bool) (e : RecorderEvent)
    (p : RecorderState × RecorderState) : RecorderState × RecorderState :=
  if onFirst then (recStep p.1 e, p.2) else (p.1, recStep4 p.2 e)

/-- C10: the hooks share no runtime state.  All mutable cells are
declared inside the hook bodies, so in the composite model of two
instances every operation or browser event delivered to one instance
leaves the state of the other instance unchanged, for every pair of hook
instances of each family. -/
theorem c10_instances_independent :
    (∀ (f g : Device → Bool) (e : MediaDeviceEvent)
        (p : MediaDeviceState × MediaDeviceState),
      (devPairStep f g true e p).2 = p.2 ∧ (devPairStep f g false e p).1 = p.1) ∧
    (∀ (ty₁ ty₂ : MediaKind) (e : UserMediaEvent)
        (p : UserMediaState × UserMediaState),
      (mediaPairStep ty₁ ty₂ true e p).2 = p.2 ∧
        (mediaPairStep ty₁ ty₂ false e p).1 = p.1) ∧
    (∀ (e : RecorderEvent) (p : RecorderState × RecorderState),
      (recPairStep true e p).2 = p.2 ∧ (recPairStep false e p).1 = p.1) := by
  refine ⟨?_, ?_, ?_⟩
  · intro f g e p
    exact ⟨rfl, rfl⟩
  · intro ty₁ ty₂ e p
    exact ⟨rfl, rfl⟩
  · intro e p
    exact ⟨rfl, rfl⟩
